import Mathlib

/-!
Shallow embedding of the priority-classification and load-balancing core of
`src/ssc_weekly_planner.py` (an SSC study-planner dashboard).  Python
`datetime` values are modelled as a calendar-day number (days since the civil
epoch, as in `datetime.date.toordinal` up to a constant shift) together with a
time-of-day in seconds; `datetime.fromisoformat` is modelled for the
`YYYY-MM-DD`, `YYYY-MM-DDTHH:MM` and `YYYY-MM-DDTHH:MM:SS` shapes that ISO
date strings in the planner's JSON data take.  JSON values (and the Python
values the planner stores in its dicts) are modelled by `PyVal`; fallible
code paths (statements that can raise) return `Except String`.
-/

namespace SSCPlanner

/-- A Python `datetime`: calendar day number plus time of day in seconds. -/
structure PyDateTime where
  day : Int
  tod : Nat
deriving DecidableEq, Repr

/-- Python `datetime` `<` : lexicographic on (date, time-of-day). -/
def dtLt (a b : PyDateTime) : Prop :=
  a.day < b.day ∨ (a.day = b.day ∧ a.tod < b.tod)

instance (a b : PyDateTime) : Decidable (dtLt a b) := by
  unfold dtLt; infer_instance

/-- Python `datetime` `<=`. -/
def dtLe (a b : PyDateTime) : Prop :=
  dtLt a b ∨ a = b

instance (a b : PyDateTime) : Decidable (dtLe a b) := by
  unfold dtLe; infer_instance

/-- `d + timedelta(days = n)`. -/
def dtAddDays (a : PyDateTime) (n : Int) : PyDateTime :=
  { day := a.day + n, tod := a.tod }

/-- `(a - b).days` : Python `timedelta.days` floors towards minus infinity. -/
def tdDays (a b : PyDateTime) : Int :=
  Int.fdiv ((a.day - b.day) * 86400 + ((a.tod : Int) - (b.tod : Int))) 86400

/-- ASCII digit test for the ISO date scanner. -/
def isDig (c : Char) : Bool :=
  decide ('0' ≤ c) && decide (c ≤ '9')

/-- Numeric value of an ASCII digit. -/
def dval (c : Char) : Nat :=
  c.toNat - 48

/-- Gregorian leap year. -/
def isLeap (y : Nat) : Bool :=
  (y % 4 == 0 && y % 100 != 0) || y % 400 == 0

/-- Days in month `m` of year `y`. -/
def daysInMonth (y m : Nat) : Nat :=
  if m = 2 then (if isLeap y then 29 else 28)
  else if m = 4 ∨ m = 6 ∨ m = 9 ∨ m = 11 then 30
  else 31

/-- Civil date to day number (the standard days-from-civil computation, a
strictly increasing enumeration of valid Gregorian dates). -/
def daysFromCivil (y m d : Nat) : Int :=
  let yy : Int := if m ≤ 2 then (y : Int) - 1 else (y : Int)
  let era : Int := Int.fdiv yy 400
  let yoe : Int := yy - era * 400
  let mp : Int := if 2 < m then (m : Int) - 3 else (m : Int) + 9
  let doy : Int := Int.fdiv (153 * mp + 2) 5 + (d : Int) - 1
  let doe : Int := yoe * 365 + Int.fdiv yoe 4 - Int.fdiv yoe 100 + doy
  era * 146097 + doe - 719468

/-- Optional `THH:MM[:SS]` tail of an ISO datetime string; seconds past
midnight, `0` when the tail is empty. -/
def parseTimeChars : List Char → Option Nat
  | [] => some 0
  | 'T' :: h1 :: h2 :: ':' :: m1 :: m2 :: rest =>
    if isDig h1 && isDig h2 && isDig m1 && isDig m2 then
      let h := 10 * dval h1 + dval h2
      let mi := 10 * dval m1 + dval m2
      if h ≤ 23 ∧ mi ≤ 59 then
        match rest with
        | [] => some (3600 * h + 60 * mi)
        | ':' :: s1 :: s2 :: [] =>
          if isDig s1 && isDig s2 then
            let s := 10 * dval s1 + dval s2
            if s ≤ 59 then some (3600 * h + 60 * mi + s) else none
          else none
        | _ => none
      else none
    else none
  | _ => none

/-- `YYYY-MM-DD` head of an ISO datetime string, then the optional time tail. -/
def parseISOChars : List Char → Option PyDateTime
  | y1 :: y2 :: y3 :: y4 :: '-' :: m1 :: m2 :: '-' :: d1 :: d2 :: rest =>
    if isDig y1 && isDig y2 && isDig y3 && isDig y4 &&
       isDig m1 && isDig m2 && isDig d1 && isDig d2 then
      let y := 1000 * dval y1 + 100 * dval y2 + 10 * dval y3 + dval y4
      let m := 10 * dval m1 + dval m2
      let d := 10 * dval d1 + dval d2
      if 1 ≤ y ∧ 1 ≤ m ∧ m ≤ 12 ∧ 1 ≤ d ∧ d ≤ daysInMonth y m then
        match parseTimeChars rest with
        | some tod => some { day := daysFromCivil y m d, tod := tod }
        | none => none
      else none
    else none
  | _ => none

/-- `datetime.fromisoformat`, for the string shapes the planner's data uses;
returns `none` where Python raises `ValueError`. -/
def parseISO (s : String) : Option PyDateTime :=
  parseISOChars s.data

/-- A Python value as the planner passes it around: decoded JSON plus the
`datetime` objects the classifiers store in their result dicts. -/
inductive PyVal where
  | null : PyVal
  | bool : Bool → PyVal
  | num : ℚ → PyVal
  | str : String → PyVal
  | dt : PyDateTime → PyVal
  | list : List PyVal → PyVal
  | obj : List (String × PyVal) → PyVal
deriving Repr

/-- Python dict `.get`, `none` when the key is absent. -/
def dget : List (String × PyVal) → String → Option PyVal
  | [], _ => none
  | (k, v) :: rest, key => if k = key then some v else dget rest key

/-- Python truthiness of a `PyVal`. -/
def truthy : PyVal → Bool
  | .null => false
  | .bool b => b
  | .num q => decide (q ≠ 0)
  | .str s => decide (s ≠ "")
  | .dt _ => true
  | .list xs => !xs.isEmpty
  | .obj fs => !fs.isEmpty

/-- Python `a or b` over values (`a` when truthy, else `b`). -/
def pyOr (a b : PyVal) : PyVal :=
  if truthy a then a else b

/-- Python `dict.get(key)` as an expression: `None` when absent. -/
def dgetOrNone (fields : List (String × PyVal)) (key : String) : PyVal :=
  (dget fields key).getD PyVal.null

/-- The GK classification buckets of `get_gk_priorities`. -/
inductive Bucket where
  | overdue : Bucket
  | dueToday : Bucket
  | weakAreas : Bucket
  | upcoming : Bucket
deriving DecidableEq, Repr

/-- One classified revision record as `get_gk_priorities` appends it:
`{"topic": .., "due_date": .., "success_rate": ..}` (the success rate is
stored as retrieved, so it stays a raw `PyVal`). -/
structure RevEntry where
  topic : String
  due_date : PyDateTime
  success_rate : PyVal
deriving Repr

/-- The per-revision body of `get_gk_priorities`'s inner loop (source lines
220-254): a non-dict entry is skipped; `revision["due_date"]` missing (a
`KeyError`), non-string (`TypeError` in `fromisoformat`) or unparseable
(`ValueError`) is caught by the bare `except` and skips the entry, as is a
non-numeric `success_rate` reaching the `success_rate < 0.7` comparison.
Returns the bucket the entry lands in together with the appended record;
`none` means the entry was skipped. -/
def classifyRev (today : PyDateTime) (topic : String) (revision : PyVal) :
    Option (Bucket × RevEntry) :=
  match revision with
  | .obj fields =>
    match dget fields "due_date" with
    | some (.str s) =>
      match parseISO s with
      | some due_date =>
        let success_rate := (dget fields "success_rate").getD (PyVal.num 1)
        if dtLt due_date today then
          some (Bucket.overdue, { topic := topic, due_date := due_date, success_rate := success_rate })
        else if due_date.day = today.day then
          some (Bucket.dueToday, { topic := topic, due_date := due_date, success_rate := success_rate })
        else
          match success_rate with
          | .num r =>
            if r < mkRat 7 10 then
              some (Bucket.weakAreas, { topic := topic, due_date := due_date, success_rate := PyVal.num r })
            else
              some (Bucket.upcoming, { topic := topic, due_date := due_date, success_rate := PyVal.num r })
          | _ => none
      | none => none
    | some _ => none
    | none => none
  | _ => none

/-- The four bucket lists of `get_gk_priorities`. -/
structure GkPriorities where
  overdue : List RevEntry
  due_today : List RevEntry
  weak_areas : List RevEntry
  upcoming : List RevEntry
deriving Repr

/-- The empty bucket set `get_gk_priorities` starts from (and returns for a
missing or ill-shaped `"revisions"` container). -/
def emptyGk : GkPriorities :=
  { overdue := [], due_today := [], weak_areas := [], upcoming := [] }

/-- The flattened `(topic, revision)` stream of the two nested loops of
`get_gk_priorities`: topics in container order, each topic's revisions in list
order, a topic whose value is not a list skipped whole. -/
def gkEntries (revs : List (String × PyVal)) : List (String × PyVal) :=
  revs.foldl
    (fun acc p =>
      match p.2 with
      | .list rl => acc ++ rl.map (fun r => (p.1, r))
      | _ => acc)
    []

/-- The records of the entry stream landing in bucket `b`, in stream order
(the loop appends each classified record to the end of its bucket's list, so
every bucket holds its records in stream order). -/
def bucketFilter (today : PyDateTime) (b : Bucket) (entries : List (String × PyVal)) :
    List RevEntry :=
  entries.filterMap
    (fun e =>
      match classifyRev today e.1 e.2 with
      | some (b', it) => if b' = b then some it else none
      | none => none)

/-- The bucket set built from a flattened entry stream. -/
def bucketsOfEntries (today : PyDateTime) (entries : List (String × PyVal)) :
    GkPriorities :=
  { overdue := bucketFilter today Bucket.overdue entries
    due_today := bucketFilter today Bucket.dueToday entries
    weak_areas := bucketFilter today Bucket.weakAreas entries
    upcoming := bucketFilter today Bucket.upcoming entries }

/-- `get_gk_priorities` (source lines 197-256): empty buckets unless
`gk_data["revisions"]` exists and is a dict, else classify every revision of
every topic into its bucket. -/
def get_gk_priorities (gk_data : List (String × PyVal)) (today : PyDateTime) :
    GkPriorities :=
  match dget gk_data "revisions" with
  | some (.obj revs) => bucketsOfEntries today (gkEntries revs)
  | _ => emptyGk

/-- One classified maths practice record as `get_maths_priorities` appends it:
`{"chapter": .., "next_practice_date": .., "accuracy": .., "priority": ..}`.
The chapter name is the raw value of the `name`-or-`chapter`-or-`"Unknown"`
chain, the priority the string `"HIGH"` or `"MEDIUM"`. -/
structure MathsTask where
  chapter : PyVal
  next_practice_date : PyDateTime
  accuracy : ℚ
  priority : String
deriving Repr

/-- One classified reasoning record as `get_reasoning_priorities` appends it:
`{"topic": .., "next_practice_date": .., "accuracy": .., "priority": ..}`. -/
structure ReasoningTask where
  topic : PyVal
  next_practice_date : PyDateTime
  accuracy : ℚ
  priority : String
deriving Repr

/-- The per-chapter body of `get_maths_priorities`'s loop (source lines
275-300): non-dict entries are skipped; the name is
`item.get("name") or item.get("chapter") or "Unknown"`; a missing
`next_practice_date` defaults to `today.isoformat()`, which re-parses to
`today`; an unparseable or non-string date is skipped by the inner
`except: continue`; an entry is appended iff
`next_practice.date() <= today.date()`, tagged `"HIGH"` iff `accuracy < 0.7`
(a non-numeric accuracy makes that comparison raise `TypeError`, caught by
the outer `except`, skipping the entry). -/
def classifyChapter (today : PyDateTime) (chapter_item : PyVal) : Option MathsTask :=
  match chapter_item with
  | .obj fields =>
    let chapter_name :=
      pyOr (dgetOrNone fields "name") (pyOr (dgetOrNone fields "chapter") (PyVal.str "Unknown"))
    let accuracy := (dget fields "accuracy").getD (PyVal.num 1)
    match dget fields "next_practice_date" with
    | none =>
      -- default string is today.isoformat(); fromisoformat round-trips it to today
      if today.day ≤ today.day then
        match accuracy with
        | .num a =>
          some { chapter := chapter_name, next_practice_date := today, accuracy := a,
                 priority := if a < mkRat 7 10 then "HIGH" else "MEDIUM" }
        | _ => none
      else none
    | some (.str s) =>
      match parseISO s with
      | some next_practice =>
        if next_practice.day ≤ today.day then
          match accuracy with
          | .num a =>
            some { chapter := chapter_name, next_practice_date := next_practice, accuracy := a,
                   priority := if a < mkRat 7 10 then "HIGH" else "MEDIUM" }
          | _ => none
        else none
      | none => none
    | some _ => none
  | _ => none

/-- `get_maths_priorities` (source lines 258-302): empty for a falsy (empty)
`maths_data`, a missing `"chapters"` key or a non-list `"chapters"`; else the
classified chapters in input order. -/
def get_maths_priorities (maths_data : List (String × PyVal)) (today : PyDateTime) :
    List MathsTask :=
  if maths_data.isEmpty then []
  else
    match dget maths_data "chapters" with
    | some (.list chapters) => chapters.filterMap (classifyChapter today)
    | _ => []

/-- The per-topic body of `get_reasoning_priorities`'s loop (source lines
317-342), identical to the maths loop but with the
`name`-or-`topic`-or-`"Unknown"` chain and a `"topic"` result key. -/
def classifyReasoning (today : PyDateTime) (topic_item : PyVal) : Option ReasoningTask :=
  match topic_item with
  | .obj fields =>
    let topic_name :=
      pyOr (dgetOrNone fields "name") (pyOr (dgetOrNone fields "topic") (PyVal.str "Unknown"))
    let accuracy := (dget fields "accuracy").getD (PyVal.num 1)
    match dget fields "next_practice_date" with
    | none =>
      if today.day ≤ today.day then
        match accuracy with
        | .num a =>
          some { topic := topic_name, next_practice_date := today, accuracy := a,
                 priority := if a < mkRat 7 10 then "HIGH" else "MEDIUM" }
        | _ => none
      else none
    | some (.str s) =>
      match parseISO s with
      | some next_practice =>
        if next_practice.day ≤ today.day then
          match accuracy with
          | .num a =>
            some { topic := topic_name, next_practice_date := next_practice, accuracy := a,
                   priority := if a < mkRat 7 10 then "HIGH" else "MEDIUM" }
          | _ => none
        else none
      | none => none
    | some _ => none
  | _ => none

/-- `get_reasoning_priorities` (source lines 304-344): empty for a missing or
non-list `"reasoning"` key; else the classified topics in input order. -/
def get_reasoning_priorities (maths_data : List (String × PyVal)) (today : PyDateTime) :
    List ReasoningTask :=
  match dget maths_data "reasoning" with
  | some (.list reasoning_list) => reasoning_list.filterMap (classifyReasoning today)
  | _ => []

/-- One task dict of the daily plan: `{"type": .., "name": .., "load": ..}`
plus, for the GK aggregate only, a `"count"` key. -/
structure PlanTask where
  type : String
  name : PyVal
  load : String
  count : Option Nat
deriving Repr

/-- The plan dict `generate_daily_plan` builds (`light_count` is initialised
and never incremented by the source; `available_slots` stays empty). -/
structure Plan where
  heavy_count : Nat
  medium_count : Nat
  light_count : Nat
  tasks : List PlanTask
  available_slots : List PyVal
deriving Repr

/-- The empty plan `generate_daily_plan` starts from. -/
def emptyPlan : Plan :=
  { heavy_count := 0, medium_count := 0, light_count := 0, tasks := [], available_slots := [] }

/-- Python subscript `task[key]` on a classified maths record; `KeyError` on
any key the record's dict does not hold. -/
def mathsSubscript (t : MathsTask) (key : String) : Except String PyVal :=
  if key = "chapter" then .ok t.chapter
  else if key = "next_practice_date" then .ok (.dt t.next_practice_date)
  else if key = "accuracy" then .ok (.num t.accuracy)
  else if key = "priority" then .ok (.str t.priority)
  else .error ("KeyError: " ++ key)

/-- Python subscript `task[key]` on a classified reasoning record; the record
holds keys `topic`, `next_practice_date`, `accuracy` and `priority`, so in
particular `task["chapter"]` raises `KeyError`. -/
def reasoningSubscript (t : ReasoningTask) (key : String) : Except String PyVal :=
  if key = "topic" then .ok t.topic
  else if key = "next_practice_date" then .ok (.dt t.next_practice_date)
  else if key = "accuracy" then .ok (.num t.accuracy)
  else if key = "priority" then .ok (.str t.priority)
  else .error ("KeyError: " ++ key)

/-- The maths loop of `generate_daily_plan` (source lines 366-369): admit a
task iff its priority is `"HIGH"` and the heavy slot (cap 1) is free. -/
def addMathsLoop (plan : Plan) : List MathsTask → Plan
  | [] => plan
  | task :: rest =>
    if task.priority = "HIGH" ∧ plan.heavy_count < 1 then
      addMathsLoop
        { plan with
          tasks := plan.tasks ++
            [{ type := "maths", name := task.chapter, load := "Heavy", count := none }]
          heavy_count := plan.heavy_count + 1 }
        rest
    else addMathsLoop plan rest

/-- The reasoning loop of `generate_daily_plan` (source lines 371-374): on an
admissible task (priority `"HIGH"`, medium slots < 2) the source reads
`task["chapter"]`, but reasoning records carry the key `"topic"`, so the read
raises `KeyError` and the whole call fails. -/
def addReasoningLoop (plan : Plan) : List ReasoningTask → Except String Plan
  | [] => .ok plan
  | task :: rest =>
    if task.priority = "HIGH" ∧ plan.medium_count < 2 then
      match reasoningSubscript task "chapter" with
      | .error e => .error e
      | .ok name =>
        addReasoningLoop
          { plan with
            tasks := plan.tasks ++
              [{ type := "reasoning", name := name, load := "Medium", count := none }]
            medium_count := plan.medium_count + 1 }
          rest
    else addReasoningLoop plan rest

/-- `generate_daily_plan` (source lines 355-383): HIGH maths tasks up to the
heavy cap, HIGH reasoning tasks up to the medium cap (raising `KeyError` as
above), then one aggregate GK task carrying the combined overdue plus
due-today count whenever that count is positive.  `today` is a parameter the
source never reads. -/
def generate_daily_plan (today : PyDateTime) (gk_priorities : GkPriorities)
    (maths_priorities : List MathsTask) (reasoning_priorities : List ReasoningTask) :
    Except String Plan :=
  let _ := today
  let plan1 := addMathsLoop emptyPlan maths_priorities
  match addReasoningLoop plan1 reasoning_priorities with
  | .error e => .error e
  | .ok plan2 =>
    let overdue_count := gk_priorities.overdue.length
    let due_today_count := gk_priorities.due_today.length
    if overdue_count > 0 ∨ due_today_count > 0 then
      .ok { plan2 with
            tasks := plan2.tasks ++
              [{ type := "gk", name := PyVal.str "GK Revisions", load := "Light",
                 count := some (overdue_count + due_today_count) }] }
    else .ok plan2

/-- Python `str()` on the values the planner formats into f-strings (only the
string case is ever reached by the guard below; the others approximate). -/
def pyStr : PyVal → String
  | .null => "None"
  | .bool b => if b then "True" else "False"
  | .num q => toString q
  | .str s => s
  | .dt d => toString (repr d)
  | .list _ => "[...]"
  | .obj _ => "{...}"

/-- `anti_zero_day_rule` (source lines 385-395): when the total of overdue GK,
due-today GK, due maths and due reasoning items is zero, recommend the first
maths item of the due list with accuracy below 0.7 if one exists (the list the
filter scans is `maths_priorities` itself, every element of which carries an
`accuracy` key, so the `.get` default never fires), else the generic quiz
prompt; when the total is nonzero, the empty string. -/
def anti_zero_day_rule (gk_priorities : GkPriorities)
    (maths_priorities : List MathsTask) (reasoning_priorities : List ReasoningTask) :
    String :=
  let total_tasks := gk_priorities.overdue.length + gk_priorities.due_today.length +
    maths_priorities.length + reasoning_priorities.length
  if total_tasks = 0 then
    let weak_maths := maths_priorities.filter (fun t => t.accuracy < mkRat 7 10)
    match weak_maths with
    | w :: _ => "Practice weak area: " ++ pyStr w.chapter
    | [] => "Take a mixed GK quiz to maintain momentum"
  else ""

/-- `exam_proximity_mode` (source lines 397-405): a falsy (absent, `None` or
empty-string) `exam_date` gives `False`; otherwise the source calls
`datetime.fromisoformat` with no surrounding try, so a non-string value raises
`TypeError` and an unparseable string raises `ValueError`; a parsed date gives
`0 <= (exam_date - today).days <= 60`. -/
def exam_proximity_mode (maths_data : List (String × PyVal)) (today : PyDateTime) :
    Except String Bool :=
  let exam_date := dgetOrNone maths_data "exam_date"
  if truthy exam_date = false then .ok false
  else
    match exam_date with
    | .str s =>
      match parseISO s with
      | some e => .ok (decide (0 ≤ tdDays e today ∧ tdDays e today ≤ 60))
      | none => .error "ValueError: invalid isoformat string"
    | _ => .error "TypeError: fromisoformat: argument must be str"

/-- One row of the 7-day plan:
`{"date": .., "gk_count": .., "maths_count": .., "reasoning_count": .., "load": ..}`. -/
structure DayForecast where
  date : PyDateTime
  gk_count : Nat
  maths_count : Nat
  reasoning_count : Nat
  load : String
deriving Repr

/-- The loop body of `generate_7day_plan` (source lines 415-439) for one
reference date: re-run the three classifiers, count GK overdue plus due-today
and the HIGH practice items, and assign the load by the source's ladder. -/
def forecastDay (gk_data maths_data : List (String × PyVal)) (current_date : PyDateTime) :
    DayForecast :=
  let gk_priorities := get_gk_priorities gk_data current_date
  let maths_priorities := get_maths_priorities maths_data current_date
  let reasoning_priorities := get_reasoning_priorities maths_data current_date
  let gk_count := gk_priorities.overdue.length + gk_priorities.due_today.length
  let maths_count := (maths_priorities.filter (fun t => t.priority = "HIGH")).length
  let reasoning_count := (reasoning_priorities.filter (fun t => t.priority = "HIGH")).length
  let load :=
    if maths_count > 0 ∨ (gk_count = 0 ∧ reasoning_count > 0) then
      (if reasoning_count > 0 then "Medium" else "Heavy")
    else if gk_count > 3 then "Medium"
    else "Light"
  { date := current_date, gk_count := gk_count, maths_count := maths_count,
    reasoning_count := reasoning_count, load := load }

/-- `generate_7day_plan` (source lines 411-441): the forecast rows for
`today + 0` through `today + 6`, in date order. -/
def generate_7day_plan (today : PyDateTime) (gk_data maths_data : List (String × PyVal)) :
    List DayForecast :=
  (List.range 7).map (fun day_offset => forecastDay gk_data maths_data (dtAddDays today day_offset))

/-- Whether a stored success rate is a number below the 0.7 threshold (the
test the source's `elif success_rate < 0.7` performs when it is reached). -/
def rateBelow (v : PyVal) : Bool :=
  match v with
  | .num r => decide (r < mkRat 7 10)
  | _ => false

/-- The revision-classification ladder exactly as claim C1 words it, over the
parsed entry: rule 2 compares the due date and the reference value for
equality as full values (`due_date == today`), where the source compares only
their calendar dates. -/
def claimC1Bucket (due_date : PyDateTime) (success_rate : ℚ) (today : PyDateTime) : Bucket :=
  if dtLt due_date today then Bucket.overdue
  else if due_date = today then Bucket.dueToday
  else if success_rate < mkRat 7 10 then Bucket.weakAreas
  else Bucket.upcoming

/-- The code's revision ladder over a parsed entry: overdue by full-timestamp
comparison, due-today by calendar-date equality, then the weak-rate test. -/
def revisionBucket (due_date : PyDateTime) (success_rate : PyVal) (today : PyDateTime) : Bucket :=
  if dtLt due_date today then Bucket.overdue
  else if due_date.day = today.day then Bucket.dueToday
  else if rateBelow success_rate then Bucket.weakAreas
  else Bucket.upcoming

/-- A revision entry of one of the malformed shapes claim C6 lists: wrong
element type (not a dict), missing required `due_date` field, or a `due_date`
that is not a parseable date string. -/
def skippedRevShape (rev : PyVal) : Bool :=
  match rev with
  | .obj fields =>
    match dget fields "due_date" with
    | none => true
    | some (.str s) => (parseISO s).isNone
    | some _ => true
  | _ => true

/-- A practice entry of one of the malformed shapes claim C6 lists: wrong
element type, or a `next_practice_date` that is present but not a parseable
date string (an absent date is not malformed: it defaults to today). -/
def skippedPracticeShape (item : PyVal) : Bool :=
  match item with
  | .obj fields =>
    match dget fields "next_practice_date" with
    | none => false
    | some (.str s) => (parseISO s).isNone
    | some _ => true
  | _ => true

/-- Total number of classified records across the four GK buckets. -/
def gkTotal (p : GkPriorities) : Nat :=
  p.overdue.length + p.due_today.length + p.weak_areas.length + p.upcoming.length

/-- The tasks of a plan of one `"type"`. -/
def tasksOfType (p : Plan) (ty : String) : List PlanTask :=
  p.tasks.filter (fun t => t.type = ty)

/-- Reference value for concrete instances: 2025-03-10, 12:00:00 (a reference
`datetime` carrying a nonzero time of day, as `datetime.now()` does). -/
def refNoon : PyDateTime :=
  { day := daysFromCivil 2025 3 10, tod := 43200 }

/-- Reference value for concrete instances: 2025-03-10 at midnight. -/
def refMidnight : PyDateTime :=
  { day := daysFromCivil 2025 3 10, tod := 0 }

/-- A GK source with four overdue revisions and nothing else, for the 7-day
forecast instance of the spec (gk_count 4, no maths or reasoning data). -/
def gkFourOverdue : List (String × PyVal) :=
  [("revisions", .obj [("Polity", .list
     [.obj [("due_date", .str "2025-03-01")],
      .obj [("due_date", .str "2025-03-02")],
      .obj [("due_date", .str "2025-03-03")],
      .obj [("due_date", .str "2025-03-04")]])])]

/-- C1 counterexample: the claim's ladder reads rule 2 as `due_date == today`,
full-value equality.  A revision due today at 15:00 against a reference value
of today at 12:00 is neither `< today` nor `== today`, so the claim's ladder
(with a success rate of 0.9) puts it in `upcoming`, while the code classifies
it `due_today` because the code's rule 2 compares calendar dates only. -/
theorem C1_revision_ladder_cex :
    (classifyRev refNoon "Polity"
        (.obj [("due_date", .str "2025-03-10T15:00:00"), ("success_rate", .num (mkRat 9 10))])).map Prod.fst
      = some Bucket.dueToday ∧
    claimC1Bucket { day := daysFromCivil 2025 3 10, tod := 54000 } (mkRat 9 10) refNoon
      = Bucket.upcoming := by
  constructor <;> rfl

/-- C1 (amended): for every parseable revision entry the GK classifier places
the item in exactly one bucket, the one chosen by the first matching rule of
the code's ladder `revisionBucket`: `due_date < today` (full timestamps) gives
overdue; `due_date.date() == today.date()` (calendar dates) gives due_today;
otherwise `success_rate < 0.70` gives weak_areas; otherwise upcoming. -/
theorem C1_revision_first_match (today : PyDateTime) (topic : String) (rev : PyVal)
    (b : Bucket) (it : RevEntry)
    (h : classifyRev today topic rev = some (b, it)) :
    b = revisionBucket it.due_date it.success_rate today := by
  cases rev
  case obj fields =>
    unfold classifyRev at h
    dsimp only at h
    rcases hd : dget fields "due_date" with _ | v
    · rw [hd] at h; exact Option.noConfusion h
    · rw [hd] at h
      cases v
      case str s =>
        dsimp only at h
        rcases hp : parseISO s with _ | due
        · rw [hp] at h; exact Option.noConfusion h
        · rw [hp] at h
          dsimp only at h
          by_cases h1 : dtLt due today
          · rw [if_pos h1] at h
            simp only [Option.some.injEq, Prod.mk.injEq] at h
            obtain ⟨hb, hit⟩ := h
            subst hb; subst hit
            simp [revisionBucket, h1]
          · by_cases h2 : due.day = today.day
            · rw [if_neg h1, if_pos h2] at h
              simp only [Option.some.injEq, Prod.mk.injEq] at h
              obtain ⟨hb, hit⟩ := h
              subst hb; subst hit
              simp [revisionBucket, h1, h2]
            · rw [if_neg h1, if_neg h2] at h
              rcases hr : (dget fields "success_rate").getD (PyVal.num 1) with _ | _ | r | _ | _ | _ | _ <;>
                rw [hr] at h <;> try exact Option.noConfusion h
              dsimp only at h
              by_cases h3 : r < mkRat 7 10
              · rw [if_pos h3] at h
                simp only [Option.some.injEq, Prod.mk.injEq] at h
                obtain ⟨hb, hit⟩ := h
                subst hb; subst hit
                simp [revisionBucket, rateBelow, h1, h2, h3]
              · rw [if_neg h3] at h
                simp only [Option.some.injEq, Prod.mk.injEq] at h
                obtain ⟨hb, hit⟩ := h
                subst hb; subst hit
                simp [revisionBucket, rateBelow, h1, h2, h3]
      all_goals exact Option.noConfusion h
  all_goals exact Option.noConfusion h

/-- C1 witness: a revision due 2025-03-01 classified against noon of
2025-03-10 lands in the bucket the code ladder picks, overdue. -/
theorem C1_revision_first_match_witness :
    Bucket.overdue =
      revisionBucket { day := daysFromCivil 2025 3 1, tod := 0 } (PyVal.num 1) refNoon :=
  C1_revision_first_match refNoon "History" (.obj [("due_date", .str "2025-03-01")])
    Bucket.overdue
    { topic := "History", due_date := { day := daysFromCivil 2025 3 1, tod := 0 },
      success_rate := PyVal.num 1 }
    rfl

/-- C3: evaluating `generate_daily_plan`.  First conjunct: one HIGH reasoning
item makes the call raise `KeyError: chapter` (admission reads
`task["chapter"]`, a key reasoning records do not carry) instead of admitting
it as a Medium task.  Second conjunct: three HIGH maths items yield exactly
one Heavy maths task (cap 1).  Third conjunct: two overdue plus one due-today
GK records fold into exactly one light aggregate task with count 3. -/
theorem C3_daily_plan_eval :
    generate_daily_plan refNoon emptyGk []
        [{ topic := .str "Syllogism", next_practice_date := refNoon, accuracy := mkRat 1 2,
           priority := "HIGH" }]
      = .error "KeyError: chapter" ∧
    generate_daily_plan refNoon emptyGk
        [{ chapter := .str "Algebra", next_practice_date := refNoon, accuracy := mkRat 1 2,
           priority := "HIGH" },
         { chapter := .str "Geometry", next_practice_date := refNoon, accuracy := mkRat 3 5,
           priority := "HIGH" },
         { chapter := .str "Trigonometry", next_practice_date := refNoon, accuracy := mkRat 13 20,
           priority := "HIGH" }] []
      = .ok { heavy_count := 1, medium_count := 0, light_count := 0,
              tasks := [{ type := "maths", name := .str "Algebra", load := "Heavy", count := none }],
              available_slots := [] } ∧
    generate_daily_plan refNoon
        { overdue := [{ topic := "Polity", due_date := { day := daysFromCivil 2025 3 1, tod := 0 },
                        success_rate := PyVal.num 1 },
                      { topic := "History", due_date := { day := daysFromCivil 2025 3 2, tod := 0 },
                        success_rate := PyVal.num 1 }],
          due_today := [{ topic := "Geography", due_date := { day := daysFromCivil 2025 3 10, tod := 0 },
                          success_rate := PyVal.num 1 }],
          weak_areas := [], upcoming := [] } [] []
      = .ok { heavy_count := 0, medium_count := 0, light_count := 0,
              tasks := [{ type := "gk", name := .str "GK Revisions", load := "Light", count := some 3 }],
              available_slots := [] } :=
  ⟨rfl, rfl, rfl⟩

/-- C5: the core does raise on normal dirty input.  An unparseable
`exam_date` string makes `exam_proximity_mode` raise `ValueError` (its
`fromisoformat` call has no surrounding try), though an absent one returns
`False`; and `generate_daily_plan` raises `KeyError: chapter` on a
HIGH-priority reasoning item instead of returning a plan. -/
theorem C5_core_raises_eval :
    exam_proximity_mode [("exam_date", .str "TBD")] refNoon
      = .error "ValueError: invalid isoformat string" ∧
    exam_proximity_mode [] refNoon = .ok false ∧
    generate_daily_plan refNoon emptyGk []
        [{ topic := .str "Blood Relations", next_practice_date := refNoon, accuracy := mkRat 3 5,
           priority := "HIGH" }]
      = .error "KeyError: chapter" :=
  ⟨rfl, rfl, rfl⟩

/-- C9: advancing the reference date by one day never moves an item out of
the overdue bucket: an entry classified overdue for `today` is classified
overdue, as the same record, for `today + timedelta(days=1)`. -/
theorem C9_overdue_monotone (today : PyDateTime) (topic : String) (rev : PyVal)
    (it : RevEntry)
    (h : classifyRev today topic rev = some (Bucket.overdue, it)) :
    classifyRev (dtAddDays today 1) topic rev = some (Bucket.overdue, it) := by
  cases rev
  case obj fields =>
    unfold classifyRev at h ⊢
    dsimp only at h ⊢
    rcases hd : dget fields "due_date" with _ | v
    · rw [hd] at h; exact Option.noConfusion h
    · rw [hd] at h
      cases v
      case str s =>
        dsimp only at h ⊢
        rcases hp : parseISO s with _ | due
        · rw [hp] at h; exact Option.noConfusion h
        · rw [hp] at h
          dsimp only at h ⊢
          by_cases h1 : dtLt due today
          · have h1' : dtLt due (dtAddDays today 1) := by
              unfold dtLt at h1 ⊢
              unfold dtAddDays
              dsimp only
              omega
            rw [if_pos h1] at h
            rw [if_pos h1']
            exact h
          · exfalso
            rw [if_neg h1] at h
            by_cases h2 : due.day = today.day
            · rw [if_pos h2] at h
              simp only [Option.some.injEq, Prod.mk.injEq] at h
              exact Bucket.noConfusion h.1
            · rw [if_neg h2] at h
              rcases hr : (dget fields "success_rate").getD (PyVal.num 1) with _ | _ | r | _ | _ | _ | _ <;>
                rw [hr] at h <;> try exact Option.noConfusion h
              dsimp only at h
              by_cases h3 : r < mkRat 7 10
              · rw [if_pos h3] at h
                simp only [Option.some.injEq, Prod.mk.injEq] at h
                exact Bucket.noConfusion h.1
              · rw [if_neg h3] at h
                simp only [Option.some.injEq, Prod.mk.injEq] at h
                exact Bucket.noConfusion h.1
      all_goals exact Option.noConfusion h
  all_goals exact Option.noConfusion h

/-- C9 witness: the overdue entry of 2025-03-01 stays overdue when the
reference value moves from noon 2025-03-10 one day forward. -/
theorem C9_overdue_monotone_witness :
    classifyRev (dtAddDays refNoon 1) "History" (.obj [("due_date", .str "2025-03-01")]) =
      some (Bucket.overdue,
        { topic := "History", due_date := { day := daysFromCivil 2025 3 1, tod := 0 },
          success_rate := PyVal.num 1 }) :=
  C9_overdue_monotone refNoon "History" (.obj [("due_date", .str "2025-03-01")])
    { topic := "History", due_date := { day := daysFromCivil 2025 3 1, tod := 0 },
      success_rate := PyVal.num 1 }
    rfl

/-- C10: when the reference value carries a time of day later than midnight,
a revision whose due-date string parses to midnight of today's calendar date
is classified overdue (the overdue test compares full timestamps), not
due_today (only that test compares calendar dates). -/
theorem C10_midnight_today_overdue (today : PyDateTime) (topic : String)
    (fields : List (String × PyVal)) (s : String)
    (hs : dget fields "due_date" = some (.str s))
    (hp : parseISO s = some { day := today.day, tod := 0 })
    (ht : 0 < today.tod) :
    (classifyRev today topic (.obj fields)).map Prod.fst = some Bucket.overdue ∧
    (classifyRev today topic (.obj fields)).map Prod.fst ≠ some Bucket.dueToday := by
  have h1 : dtLt { day := today.day, tod := 0 } today := Or.inr ⟨rfl, ht⟩
  have hcl : (classifyRev today topic (.obj fields)).map Prod.fst = some Bucket.overdue := by
    unfold classifyRev
    dsimp only
    rw [hs]
    dsimp only
    rw [hp]
    dsimp only
    rw [if_pos h1]
    rfl
  exact ⟨hcl, by rw [hcl]; simp⟩

/-- C10 witness: `"2025-03-10"` parses to midnight of the reference day; with
the reference value at noon the entry is overdue. -/
theorem C10_midnight_today_overdue_witness :
    (classifyRev refNoon "Polity" (.obj [("due_date", .str "2025-03-10")])).map Prod.fst
      = some Bucket.overdue ∧
    (classifyRev refNoon "Polity" (.obj [("due_date", .str "2025-03-10")])).map Prod.fst
      ≠ some Bucket.dueToday :=
  C10_midnight_today_overdue refNoon "Polity" [("due_date", .str "2025-03-10")] "2025-03-10"
    rfl rfl (by decide)

/-- C2 counterexample: the claim reads the due test as
`next_practice_date <= today` over full values, but the code compares
calendar dates only: a chapter whose next practice parses to today at 23:00,
classified against today at noon, is returned (tagged from its accuracy)
although its `next_practice_date` is not `<= today`. -/
theorem C2_practice_timestamp_cex :
    classifyChapter refNoon
        (.obj [("name", .str "Algebra"), ("accuracy", .num (mkRat 1 2)),
               ("next_practice_date", .str "2025-03-10T23:00:00")]) =
      some { chapter := .str "Algebra",
             next_practice_date := { day := daysFromCivil 2025 3 10, tod := 82800 },
             accuracy := mkRat 1 2, priority := "HIGH" } ∧
    ¬ dtLe { day := daysFromCivil 2025 3 10, tod := 82800 } refNoon := by
  exact ⟨rfl, by decide⟩

/-- C2 (amended): a practice entry (maths chapter or reasoning topic) with a
parseable `next_practice_date` and numeric accuracy is returned iff
`next_practice_date.date() <= today.date()` (calendar dates, not full
timestamps), tagged HIGH exactly when `accuracy < 0.70` and MEDIUM otherwise;
an entry not yet due by that date test appears in no output at all. -/
theorem C2_practice_due_iff (today np : PyDateTime) (fields : List (String × PyVal))
    (s : String) (a : ℚ)
    (hs : dget fields "next_practice_date" = some (.str s))
    (hp : parseISO s = some np)
    (ha : dget fields "accuracy" = some (.num a)) :
    classifyChapter today (.obj fields) =
      (if np.day ≤ today.day then
        some { chapter := pyOr (dgetOrNone fields "name")
                 (pyOr (dgetOrNone fields "chapter") (PyVal.str "Unknown")),
               next_practice_date := np, accuracy := a,
               priority := if a < mkRat 7 10 then "HIGH" else "MEDIUM" }
       else none) ∧
    classifyReasoning today (.obj fields) =
      (if np.day ≤ today.day then
        some { topic := pyOr (dgetOrNone fields "name")
                 (pyOr (dgetOrNone fields "topic") (PyVal.str "Unknown")),
               next_practice_date := np, accuracy := a,
               priority := if a < mkRat 7 10 then "HIGH" else "MEDIUM" }
       else none) := by
  constructor
  · simp only [classifyChapter, hs, ha, Option.getD]
    rw [hp]
  · simp only [classifyReasoning, hs, ha, Option.getD]
    rw [hp]

/-- C2 witness: a chapter with accuracy 0.65 due 2025-03-09 against noon of
2025-03-10 is returned by both practice classifiers, tagged HIGH. -/
theorem C2_practice_due_iff_witness :
    classifyChapter refNoon
        (.obj [("name", .str "Percentages"), ("accuracy", .num (mkRat 13 20)),
               ("next_practice_date", .str "2025-03-09")]) =
      some { chapter := .str "Percentages",
             next_practice_date := { day := daysFromCivil 2025 3 9, tod := 0 },
             accuracy := mkRat 13 20, priority := "HIGH" } ∧
    classifyReasoning refNoon
        (.obj [("name", .str "Percentages"), ("accuracy", .num (mkRat 13 20)),
               ("next_practice_date", .str "2025-03-09")]) =
      some { topic := .str "Percentages",
             next_practice_date := { day := daysFromCivil 2025 3 9, tod := 0 },
             accuracy := mkRat 13 20, priority := "HIGH" } :=
  C2_practice_due_iff refNoon { day := daysFromCivil 2025 3 9, tod := 0 }
    [("name", .str "Percentages"), ("accuracy", .num (mkRat 13 20)),
     ("next_practice_date", .str "2025-03-09")]
    "2025-03-09" (mkRat 13 20) rfl rfl rfl

/-- C4 counterexample: a maths pool holding a weak chapter (accuracy 0.5,
below 0.70) that is not yet due, with everything else empty, gives a total
actionable count of zero, yet the guard returns the generic mixed-review
string, not a recommendation naming the weak item: the weak-area filter scans
the due list, which is empty here. -/
theorem C4_zero_day_pool_cex :
    get_maths_priorities
        [("chapters", .list [.obj [("name", .str "Algebra"), ("accuracy", .num (mkRat 1 2)),
                                   ("next_practice_date", .str "2025-03-11")]])] refNoon = [] ∧
    (mkRat 1 2 < mkRat 7 10) ∧
    anti_zero_day_rule (get_gk_priorities [] refNoon)
        (get_maths_priorities
          [("chapters", .list [.obj [("name", .str "Algebra"), ("accuracy", .num (mkRat 1 2)),
                                     ("next_practice_date", .str "2025-03-11")]])] refNoon)
        (get_reasoning_priorities
          [("chapters", .list [.obj [("name", .str "Algebra"), ("accuracy", .num (mkRat 1 2)),
                                     ("next_practice_date", .str "2025-03-11")]])] refNoon)
      = "Take a mixed GK quiz to maintain momentum" ∧
    "Take a mixed GK quiz to maintain momentum" ≠ "Practice weak area: Algebra" := by
  exact ⟨rfl, by decide, rfl, by decide⟩

/-- C4 (amended): when the total actionable count is zero the Zero-Day Guard
always returns the generic mixed-review string — the weak-area branch filters
the due maths list, which is empty whenever the count is zero, so it can never
fire; when the count is nonzero it returns the empty signal. -/
theorem C4_zero_day_guard (gk : GkPriorities) (mp : List MathsTask)
    (rp : List ReasoningTask) :
    (gk.overdue.length + gk.due_today.length + mp.length + rp.length = 0 →
      anti_zero_day_rule gk mp rp = "Take a mixed GK quiz to maintain momentum") ∧
    (gk.overdue.length + gk.due_today.length + mp.length + rp.length ≠ 0 →
      anti_zero_day_rule gk mp rp = "") := by
  constructor <;> intro h
  · have hmp : mp = [] := List.length_eq_zero.mp (by omega)
    subst hmp
    unfold anti_zero_day_rule
    dsimp only
    rw [if_pos h]
    rfl
  · unfold anti_zero_day_rule
    dsimp only
    rw [if_neg h]

/-- C4 witness: with every list empty the guard yields the generic string;
with one overdue GK record it yields the empty signal. -/
theorem C4_zero_day_guard_witness :
    anti_zero_day_rule emptyGk [] [] = "Take a mixed GK quiz to maintain momentum" ∧
    anti_zero_day_rule
        { overdue := [{ topic := "Polity", due_date := refMidnight, success_rate := PyVal.num 1 }],
          due_today := [], weak_areas := [], upcoming := [] } [] [] = "" :=
  ⟨(C4_zero_day_guard emptyGk [] []).1 rfl,
   (C4_zero_day_guard
      { overdue := [{ topic := "Polity", due_date := refMidnight, success_rate := PyVal.num 1 }],
        due_today := [], weak_areas := [], upcoming := [] } [] []).2 (by decide)⟩

/-- C6: malformed entries are skipped one at a time and the rest kept: a
revision entry of wrong type, with a missing `due_date` or with an
unparseable date classifies to nothing and its removal from any entry stream
leaves all four buckets unchanged; likewise a malformed practice entry
classifies to nothing and its removal from the chapters list leaves the
practice result unchanged. -/
theorem C6_malformed_entry_skipped (today : PyDateTime) (topic : String)
    (rev item : PyVal)
    (h : skippedRevShape rev = true) (h2 : skippedPracticeShape item = true) :
    classifyRev today topic rev = none ∧
    (∀ pre post, bucketsOfEntries today (pre ++ (topic, rev) :: post) =
        bucketsOfEntries today (pre ++ post)) ∧
    classifyChapter today item = none ∧
    (∀ pre post,
      get_maths_priorities [("chapters", PyVal.list (pre ++ item :: post))] today =
        get_maths_priorities [("chapters", PyVal.list (pre ++ post))] today) := by
  have hrev : classifyRev today topic rev = none := by
    cases rev <;> try rfl
    case obj fields =>
      unfold skippedRevShape at h
      unfold classifyRev
      dsimp only at h ⊢
      rcases hd : dget fields "due_date" with _ | v
      · rfl
      · rw [hd] at h
        cases v <;> try rfl
        case str s =>
          dsimp only at h
          rw [Option.isNone_iff_eq_none] at h
          dsimp only
          rw [h]
  have hchap : classifyChapter today item = none := by
    cases item <;> try rfl
    case obj fields =>
      unfold skippedPracticeShape at h2
      unfold classifyChapter
      dsimp only at h2 ⊢
      rcases hd : dget fields "next_practice_date" with _ | v
      · rw [hd] at h2
        exact Bool.noConfusion h2
      · rw [hd] at h2
        cases v <;> try rfl
        case str s =>
          dsimp only at h2
          rw [Option.isNone_iff_eq_none] at h2
          dsimp only
          rw [h2]
  refine ⟨hrev, fun pre post => ?_, hchap, fun pre post => ?_⟩
  · unfold bucketsOfEntries bucketFilter
    simp [List.filterMap_append, List.filterMap_cons, hrev]
  · unfold get_maths_priorities
    simp [dget, List.filterMap_append, List.filterMap_cons, hchap]

/-- C6 witness: one well-formed revision plus one with an unparseable date
yield the same buckets as the well-formed one alone, and the full GK pass
over both classifies exactly one item, with no failure. -/
theorem C6_malformed_entry_skipped_witness :
    bucketsOfEntries refNoon
        [("History", PyVal.obj [("due_date", PyVal.str "2025-03-01")]),
         ("History", PyVal.obj [("due_date", PyVal.str "March 5, 2025")])] =
      bucketsOfEntries refNoon [("History", PyVal.obj [("due_date", PyVal.str "2025-03-01")])] ∧
    gkTotal (get_gk_priorities
        [("revisions", PyVal.obj [("History", PyVal.list
            [PyVal.obj [("due_date", PyVal.str "2025-03-01")],
             PyVal.obj [("due_date", PyVal.str "March 5, 2025")]])])] refNoon) = 1 :=
  ⟨(C6_malformed_entry_skipped refNoon "History"
      (PyVal.obj [("due_date", PyVal.str "March 5, 2025")])
      (PyVal.obj [("next_practice_date", PyVal.str "soon")]) rfl rfl).2.1
      [("History", PyVal.obj [("due_date", PyVal.str "2025-03-01")])] [],
   rfl⟩

/-- C7: the 7-day forecaster returns exactly 7 date-ordered records, one per
offset 0..6, each re-running the three classifiers at that reference date and
labelling the load by the source's fixed ladder; and on the concrete GK set
with 4 overdue items and no maths or reasoning data, day 0 resolves to
Medium with gk_count 4. -/
theorem C7_seven_day_forecast (today : PyDateTime) (gk_data maths_data : List (String × PyVal)) :
    generate_7day_plan today gk_data maths_data =
      (List.range 7).map (fun day_offset =>
        let current_date := dtAddDays today day_offset
        let gkp := get_gk_priorities gk_data current_date
        let mp := get_maths_priorities maths_data current_date
        let rp := get_reasoning_priorities maths_data current_date
        let gk_count := gkp.overdue.length + gkp.due_today.length
        let maths_count := (mp.filter (fun t => t.priority = "HIGH")).length
        let reasoning_count := (rp.filter (fun t => t.priority = "HIGH")).length
        { date := current_date, gk_count := gk_count, maths_count := maths_count,
          reasoning_count := reasoning_count,
          load :=
            if maths_count > 0 ∨ (gk_count = 0 ∧ reasoning_count > 0) then
              (if reasoning_count > 0 then "Medium" else "Heavy")
            else if gk_count > 3 then "Medium"
            else "Light" }) ∧
    (generate_7day_plan today gk_data maths_data).length = 7 ∧
    (generate_7day_plan refMidnight gkFourOverdue []).head? =
      some { date := refMidnight, gk_count := 4, maths_count := 0, reasoning_count := 0,
             load := "Medium" } :=
  ⟨rfl, rfl, rfl⟩

/-- C8: the exam proximity predicate yields `True` iff the `exam_date` field
is present as a parseable date string whose distance from `today` in days is
between 0 and 60; concretely, an exam exactly 60 days ahead gives `True`, 61
days ahead gives `False`, a past date gives `False` and an absent field gives
`False`. -/
theorem C8_exam_proximity_iff (maths_data : List (String × PyVal)) (today : PyDateTime) :
    (exam_proximity_mode maths_data today = .ok true ↔
      ∃ s e, dget maths_data "exam_date" = some (.str s) ∧ parseISO s = some e ∧
        0 ≤ tdDays e today ∧ tdDays e today ≤ 60) ∧
    exam_proximity_mode [("exam_date", .str "2025-05-09T12:00:00")] refNoon = .ok true ∧
    tdDays { day := daysFromCivil 2025 5 9, tod := 43200 } refNoon = 60 ∧
    exam_proximity_mode [("exam_date", .str "2025-05-10T12:00:00")] refNoon = .ok false ∧
    tdDays { day := daysFromCivil 2025 5 10, tod := 43200 } refNoon = 61 ∧
    exam_proximity_mode [("exam_date", .str "2025-03-01")] refNoon = .ok false ∧
    exam_proximity_mode [] refNoon = .ok false := by
  refine ⟨?_, rfl, rfl, rfl, rfl, rfl, rfl⟩
  unfold exam_proximity_mode dgetOrNone
  rcases hd : dget maths_data "exam_date" with _ | v
  · simp [truthy]
  · cases v
    case str s =>
      by_cases hs : s = ""
      · subst hs
        simp [truthy, parseISO, parseISOChars]
      · rcases hp : parseISO s with _ | e
        · simp [truthy, hs, hp]
        · simp [truthy, hs, hp, decide_eq_true_iff]
    case null => simp [truthy]
    case bool b => cases b <;> simp [truthy]
    case num q => by_cases hq : q = 0 <;> simp [truthy, hq]
    case dt d => simp [truthy]
    case list xs => cases xs <;> simp [truthy, List.isEmpty]
    case obj fs => cases fs <;> simp [truthy, List.isEmpty]

end SSCPlanner
